import Mathlib

/-!
Verification of the ligolo-ng agent (`cmd/agent/main.go`) and the userland
network-stack host (`pkg/proxy/netstack`, file `part_000`) against the
natural-language specification. Go code is shallowly embedded: each request
handler becomes a pure function from the ambient state and the outcome of its
external calls (dial results, socket close results, host/user lookups) to the
response packets it encodes, the new state, and the side effects it performs.
-/

namespace LigoloNg

/-! ## Protocol payloads (pkg/protocol, as used by the agent)

The `pkg/protocol` package is not part of the two embedded source files; the
payload shapes are taken from the envelope table of the specification (§6.1),
which the agent code consumes field by field. -/

/-- Transport selector of a `ConnectRequestPacket` (`protocol.TransportTCP` /
UDP). -/
inductive Transport where
  | tcp
  | udp
deriving DecidableEq, Repr

/-- Address-family selector of a `ConnectRequestPacket` (`protocol.Networkv4` /
v6). -/
inductive NetFamily where
  | v4
  | v6
deriving DecidableEq, Repr

/-- Payload of a `ConnectRequest` envelope. -/
structure ConnectRequestPacket where
  Address : String
  Port : Nat
  Transport : Transport
  Net : NetFamily
deriving DecidableEq, Repr

/-- Payload of a `ConnectResponse` envelope. In Go this starts from the zero
value `{Established := false, Reset := false}` and is mutated. -/
structure ConnectResponsePacket where
  Established : Bool
  Reset : Bool
deriving DecidableEq, Repr

/-! ## Dial outcomes and the host-responded predicate -/

/-- Linux errno for a connection refused by the peer. -/
def ECONNREFUSED : Nat := 111

/-- Linux errno for a connection reset by the peer. -/
def ECONNRESET : Nat := 104

/-- Linux errno for an unreachable network (ICMP net-unreachable). -/
def ENETUNREACH : Nat := 101

/-- Linux errno for an unreachable host (ICMP host-unreachable). -/
def EHOSTUNREACH : Nat := 113

/-- Modelled from the spec: the `neterror.HostResponded` predicate of
`pkg/agent/neterror` (repository code not present under the embedded sources).
Per the specification, it holds exactly for the syscall errnos indicating the
host actively responded: ECONNREFUSED, EHOSTUNREACH, ENETUNREACH and
ECONNRESET. -/
def HostResponded (e : Nat) : Bool :=
  e == ECONNREFUSED || e == EHOSTUNREACH || e == ENETUNREACH || e == ECONNRESET

/-- How a dial attempt failed, as the agent observes it: either the error
unwraps (via `errors.As`) to a `syscall.Errno`, or it is the 5-second context
timeout, or some other non-errno error. -/
inductive DialError where
  | errno (e : Nat)
  | timeout
  | other
deriving DecidableEq, Repr

/-- Result of `net.Dialer.DialContext` as the handler branches on it. -/
inductive DialOutcome where
  | success
  | failure (e : DialError)
deriving DecidableEq, Repr

/-! ## The ConnectRequest handler (`cmd/agent/main.go`, `handleConn`) -/

/-- The network string the handler assembles before dialling: `"tcp"`/`"udp"`
from the transport, suffixed `"4"`/`"6"` from the family. -/
def dialNetworkString (t : Transport) (f : NetFamily) : String :=
  (if t = Transport.tcp then "tcp" else "udp") ++
    (if f = NetFamily.v4 then "4" else "6")

/-- The dial the handler performs: network string, `"address:port"` target,
and the timeout (in seconds) attached to the dial context. -/
structure DialAttempt where
  network : String
  target : String
  timeoutSeconds : Nat
deriving DecidableEq, Repr

/-- Everything the ConnectRequest arm of `handleConn` does: the dial it
issues, the response envelopes it encodes on the session, and whether it then
starts the relay between the dialled socket and the session. -/
structure ConnectHandlerResult where
  attempt : DialAttempt
  sent : List ConnectResponsePacket
  relayStarted : Bool
deriving DecidableEq, Repr

/-- Embedding of the `protocol.MessageConnectRequest` arm of `handleConn`:
build the network string, dial with a 5-second context, fill the response
from the zero value (`Reset` is set only when the error is a `syscall.Errno`
satisfying `HostResponded`; `Established` only on success), encode exactly one
`ConnectResponse`, and relay iff `Established`. -/
def handleConnectRequest (req : ConnectRequestPacket) (outcome : DialOutcome) :
    ConnectHandlerResult :=
  let network := dialNetworkString req.Transport req.Net
  let attempt : DialAttempt :=
    { network := network
      target := req.Address ++ ":" ++ toString req.Port
      timeoutSeconds := 5 }
  let connectPacket : ConnectResponsePacket :=
    match outcome with
    | DialOutcome.failure e =>
        { Established := false
          Reset :=
            match e with
            | DialError.errno n => HostResponded n
            | DialError.timeout => false
            | DialError.other => false }
    | DialOutcome.success => { Established := true, Reset := false }
  { attempt := attempt
    sent := [connectPacket]
    relayStarted := connectPacket.Established }

/-- The `ConnectResponse` the specification demands for each dial outcome:
refused/unreachable/reset errnos (the host-responded predicate) give
`reset=true, established=false`; every other failure, the timeout included,
gives `reset=false, established=false`; success gives `established=true`. -/
def connectResponseSpec (outcome : DialOutcome) : ConnectResponsePacket :=
  match outcome with
  | DialOutcome.success => { Established := true, Reset := false }
  | DialOutcome.failure (DialError.errno n) =>
      if HostResponded n then { Established := false, Reset := true }
      else { Established := false, Reset := false }
  | DialOutcome.failure DialError.timeout =>
      { Established := false, Reset := false }
  | DialOutcome.failure DialError.other =>
      { Established := false, Reset := false }

/-- C1: for every ConnectRequest session the agent dials the requested
(transport, family, address, port) target with a 5-second timeout and encodes
exactly one ConnectResponse, equal to the specified response for the observed
dial outcome (host-responded errno → reset, any other failure → no reset,
success → established), and it splices the dialled socket with the session
exactly when the dial succeeded. -/
theorem connect_request_response_spec (req : ConnectRequestPacket)
    (outcome : DialOutcome) :
    (handleConnectRequest req outcome).attempt =
      { network := dialNetworkString req.Transport req.Net
        target := req.Address ++ ":" ++ toString req.Port
        timeoutSeconds := 5 } ∧
    (handleConnectRequest req outcome).sent = [connectResponseSpec outcome] ∧
    (handleConnectRequest req outcome).relayStarted =
      (connectResponseSpec outcome).Established := by
  refine ⟨rfl, ?_, ?_⟩ <;>
    cases outcome with
    | success => rfl
    | failure e =>
        cases e with
        | errno n =>
            simp only [handleConnectRequest, connectResponseSpec]
            by_cases h : HostResponded n = true <;> simp [h]
        | timeout => rfl
        | other => rfl

/-- C10: in every ConnectResponse the agent sends, `established` and `reset`
are never both true: the reset flag is only ever set on the dial-failure
path. -/
theorem connect_response_no_reset_when_established
    (req : ConnectRequestPacket) (outcome : DialOutcome) :
    ((handleConnectRequest req outcome).sent.all
      fun p => !(p.Established && p.Reset)) = true := by
  cases outcome with
  | success => rfl
  | failure e =>
      cases e with
      | errno n =>
          simp [handleConnectRequest, List.all]
      | timeout => rfl
      | other => rfl

/-! ## Agent listener registry (`cmd/agent/main.go`)

Global state of the agent process: `listenerConntrack : map[int32]net.Conn`,
`listenerMap : map[int32]net.Listener`, and the two monotonic counters.
Accepted sockets (`net.Conn`) are identified by opaque `Nat` handles; a
registered listener is identified by the outcome its `Close()` call would
report (`none` = success, `some msg` = the error message). Go maps are
embedded as association lists updated by consing, looked up with
`List.lookup`. -/

/-- A listener recorded in `listenerMap`. `closeError` is the result its
inner `net.Listener.Close()` returns when called. -/
structure AgentListener where
  closeError : Option String
deriving DecidableEq, Repr

/-- The agent's package-level mutable state. -/
structure AgentState where
  listenerConntrack : List (Int × Nat)
  listenerMap : List (Int × AgentListener)
  connTrackID : Int
  listenerID : Int
deriving DecidableEq, Repr

/-- Payload of a `ListenerCloseResponse` envelope. -/
structure ListenerCloseResponsePacket where
  Err : Bool
  ErrString : String
deriving DecidableEq, Repr

/-- Payload of a `ListenerSockResponse` envelope. -/
structure ListenerSockResponsePacket where
  Err : Bool
  ErrString : String
deriving DecidableEq, Repr

/-- What the `MessageListenerCloseRequest` arm of `handleConn` does: the
response it encodes, the state it leaves behind, the listeners whose `Close`
it invoked, and the parked accepted sockets it closed. -/
structure ListenerCloseResult where
  resp : ListenerCloseResponsePacket
  state : AgentState
  closedListeners : List Int
  closedConns : List Nat
deriving DecidableEq, Repr

/-- Embedding of the `protocol.MessageListenerCloseRequest` arm of
`handleConn`: look the id up in `listenerMap`; if found call `Close` on it,
else the error is `"invalid listener id"`. `Err` is set iff the error is
non-nil, and `ErrString` carries its message. The arm contains no `delete`
on `listenerMap` and never touches `listenerConntrack`. -/
def handleListenerClose (st : AgentState) (lid : Int) : ListenerCloseResult :=
  let lookup := List.lookup lid st.listenerMap
  let err : Option String :=
    match lookup with
    | some lis => lis.closeError
    | none => some "invalid listener id"
  { resp := { Err := err.isSome, ErrString := err.getD "" }
    state := st
    closedListeners := match lookup with
      | some _ => [lid]
      | none => []
    closedConns := [] }

/-- What the `MessageListenerSockRequest` arm of `handleConn` does: the
response it encodes, the state it leaves behind, and the parked socket it
splices with the session (`none` when it returns before relaying). -/
structure ListenerSockResult where
  resp : ListenerSockResponsePacket
  state : AgentState
  relayConn : Option Nat
deriving DecidableEq, Repr

/-- Embedding of the `protocol.MessageListenerSockRequest` arm of
`handleConn`: start from the zero-valued response; if the sock id is absent
from `listenerConntrack` set `Err` and the error string; encode the
response; if `Err` return, else fetch `listenerConntrack[SockID]` and relay
it with the session. The arm contains no `delete` on `listenerConntrack`. -/
def handleListenerSock (st : AgentState) (sid : Int) : ListenerSockResult :=
  let sockResponse : ListenerSockResponsePacket :=
    match List.lookup sid st.listenerConntrack with
    | none => { Err := true, ErrString := "invalid or unexistant SockID" }
    | some _ => { Err := false, ErrString := "" }
  if sockResponse.Err then
    { resp := sockResponse, state := st, relayConn := none }
  else
    { resp := sockResponse
      state := st
      relayConn := List.lookup sid st.listenerConntrack }

/-- Embedding of `Listener.ListenAndServe` run over a finite list of accepted
sockets: for each accepted `conn`, increment `connTrackID`, stream the new id
on the conntrack channel (whence `handleConn` emits a
`ListenerBindResponse{sock_id}`), and record `listenerConntrack[id] = conn`.
Returns the final state and the streamed sock ids in order. -/
def listenAndServe (st : AgentState) (conns : List Nat) :
    AgentState × List Int :=
  match conns with
  | [] => (st, [])
  | c :: rest =>
      let id := st.connTrackID + 1
      let st' : AgentState :=
        { st with
          connTrackID := id
          listenerConntrack := (id, c) :: st.listenerConntrack }
      let res := listenAndServe st' rest
      (res.1, id :: res.2)

/-! ### C7: sock-request answering -/

/-- Streaming a bind response adds exactly the streamed id to conntrack:
after serving `conns`, a sock id resolves in the final conntrack iff it was
streamed by this loop or was already present before it ran. -/
theorem listenAndServe_lookup (st : AgentState) (conns : List Nat)
    (sid : Int) :
    (List.lookup sid (listenAndServe st conns).1.listenerConntrack).isSome =
      (decide (sid ∈ (listenAndServe st conns).2) ||
        (List.lookup sid st.listenerConntrack).isSome) := by
  induction conns generalizing st with
  | nil => simp [listenAndServe]
  | cons c rest ih =>
      simp only [listenAndServe]
      rw [ih]
      by_cases h : sid = st.connTrackID + 1
      · subst h
        simp [List.lookup]
      · have hb : (sid == st.connTrackID + 1) = false := by
          simpa using h
        have hb' : (st.connTrackID + 1 == sid) = false := by
          simpa using Ne.symm h
        simp [List.lookup, List.mem_cons, h, hb, hb']

/-- C7: the `ListenerSockRequest` arm replies `err=true` exactly when the
sock id is absent from the conntrack table, otherwise it replies `err=false`
and splices the parked socket with the session; and a sock id is present in
conntrack exactly when `ListenAndServe` streamed it as a bind (or it was
already parked), so `err=false` iff a matching bind was streamed. -/
theorem listener_sock_request_spec :
    (∀ (st : AgentState) (sid : Int),
      (handleListenerSock st sid).resp.Err =
          (List.lookup sid st.listenerConntrack).isNone ∧
        (handleListenerSock st sid).relayConn =
          List.lookup sid st.listenerConntrack ∧
        (handleListenerSock st sid).state = st) ∧
    (∀ (st : AgentState) (conns : List Nat) (sid : Int),
      (handleListenerSock (listenAndServe st conns).1 sid).resp.Err = false ↔
        sid ∈ (listenAndServe st conns).2 ∨
          (List.lookup sid st.listenerConntrack).isSome = true) := by
  have hmain : ∀ (st : AgentState) (sid : Int),
      (handleListenerSock st sid).resp.Err =
          (List.lookup sid st.listenerConntrack).isNone ∧
        (handleListenerSock st sid).relayConn =
          List.lookup sid st.listenerConntrack ∧
        (handleListenerSock st sid).state = st := by
    intro st sid
    unfold handleListenerSock
    cases h : List.lookup sid st.listenerConntrack <;> simp [h]
  refine ⟨hmain, ?_⟩
  intro st conns sid
  rcases hmain (listenAndServe st conns).1 sid with ⟨herr, -, -⟩
  have hnone : ∀ (o : Option Nat), o.isNone = false ↔ o.isSome = true := by
    intro o
    cases o <;> simp
  rw [herr, hnone, listenAndServe_lookup st conns sid]
  simp

/-! ### C4: no consumption, no draining -/

/-- A concrete agent state: one parked accepted socket (id 1, handle 7) and
one open listener (id 0) whose close succeeds. -/
def stC4 : AgentState :=
  { listenerConntrack := [(1, 7)]
    listenerMap := [(0, { closeError := none })]
    connTrackID := 1
    listenerID := 1 }

/-- C4 counterexample: servicing `ListenerSockRequest{1}` does not remove
entry 1 from the conntrack table — the lookup still succeeds afterwards,
refuting the claimed consumption — and closing listener 0 closes none of the
parked accepted sockets, refuting the claimed draining. -/
theorem listener_sock_not_consumed_counterexample :
    (List.lookup 1
        (handleListenerSock stC4 1).state.listenerConntrack).isSome = true ∧
    (handleListenerClose stC4 0).closedConns = [] ∧
    List.lookup 1 (handleListenerClose stC4 0).state.listenerConntrack =
      some 7 := by
  refine ⟨rfl, rfl, rfl⟩

/-- C4 amended: servicing `ListenerSockRequest{sock_id}` leaves the agent
state, the conntrack table included, completely unchanged (the entry is not
consumed), and closing a listener neither removes conntrack entries nor
closes any parked accepted socket — unclaimed sockets are not drained. -/
theorem listener_sock_no_removal (st : AgentState) (sid lid : Int) :
    (handleListenerSock st sid).state = st ∧
    (handleListenerClose st lid).state = st ∧
    (handleListenerClose st lid).closedConns = [] := by
  refine ⟨?_, rfl, rfl⟩
  unfold handleListenerSock
  cases h : List.lookup sid st.listenerConntrack <;> simp [h]

/-! ### C6: listener close -/

/-- C6 counterexample: closing listener 0 leaves it in the listener registry
— the lookup still succeeds afterwards, refuting the claimed removal. -/
theorem listener_close_no_removal_counterexample :
    (List.lookup 0
      (handleListenerClose stC4 0).state.listenerMap).isSome = true := by
  rfl

/-- C6 amended: for every `ListenerCloseRequest{listener_id}` the agent calls
`Close` on the identified listener but does not remove it from the listener
registry (the state is unchanged), and replies with one
`ListenerCloseResponse` whose `err` field is true iff the listener id is
unknown or the close failed, with `err_string` carrying the error message in
that case. -/
theorem listener_close_response_spec (st : AgentState) (lid : Int) :
    (handleListenerClose st lid).state = st ∧
    (handleListenerClose st lid).resp.Err =
      (match List.lookup lid st.listenerMap with
        | none => true
        | some l => l.closeError.isSome) ∧
    (handleListenerClose st lid).closedListeners =
      (List.lookup lid st.listenerMap).elim [] (fun _ => [lid]) ∧
    (handleListenerClose st lid).resp.ErrString =
      (match List.lookup lid st.listenerMap with
        | none => "invalid listener id"
        | some l => l.closeError.getD "") := by
  unfold handleListenerClose
  cases h : List.lookup lid st.listenerMap with
  | none => simp [h]
  | some l =>
      cases hc : l.closeError <;> simp [h, hc]

/-! ## Session dispatch and decode failure (C2) -/

/-- The request a session can deliver after a successful decode, abstracted
to the arms of `handleConn`'s switch. -/
inductive SessionRequest where
  | connect (req : ConnectRequestPacket) (dial : DialOutcome)
  | hostPing (alive : Bool)
  | info
  | listenerRequest
  | listenerClose (lid : Int)
  | listenerSock (sid : Int)
  | close
deriving DecidableEq, Repr

/-- How an invocation of `handleConn` ends, at process granularity.
`sessionDone` is an ordinary return: only this session terminates.
`processExit` is `os.Exit(0)`. `processPanic` is an unrecovered `panic` —
`handleConn` runs as a goroutine with no `recover`, so a panic there
terminates the entire agent process, all sessions and listeners with it. -/
inductive HandleConnOutcome where
  | sessionDone
  | processExit
  | processPanic
deriving DecidableEq, Repr

/-- Embedding of `handleConn`'s control flow at session granularity: `Decode`
failing (`input = none`) hits `panic(err)`; a decoded `Close` request hits
`os.Exit(0)`; every other decoded request runs its arm and returns. -/
def handleConnOutcome (input : Option SessionRequest) : HandleConnOutcome :=
  match input with
  | none => HandleConnOutcome.processPanic
  | some SessionRequest.close => HandleConnOutcome.processExit
  | some _ => HandleConnOutcome.sessionDone

/-- C2: on a malformed request envelope (decode failure) `handleConn` does
not terminate just the session — it panics, and the unrecovered panic is
process-fatal, contradicting the claim that a ProtocolError is fatal for the
current session only. -/
theorem malformed_envelope_panics_process :
    handleConnOutcome none = HandleConnOutcome.processPanic ∧
    decide (HandleConnOutcome.processPanic =
      HandleConnOutcome.sessionDone) = false := by
  exact ⟨rfl, by decide⟩

/-! ## Userland stack host (`pkg/proxy/netstack`, file `part_000`) -/

/-- gvisor transport protocol number for TCP (`tcp.ProtocolNumber`). -/
def tcpProtocolNumber : Nat := 6

/-- gvisor transport protocol number for UDP (`udp.ProtocolNumber`). -/
def udpProtocolNumber : Nat := 17

/-- gvisor transport protocol number for ICMPv4 (`icmp.ProtocolNumber4`). -/
def icmpProtocolNumber4 : Nat := 1

/-- gvisor `stack.TransportEndpointID`: the 4-tuple of a terminated flow. -/
structure TransportEndpointID where
  LocalPort : Nat
  LocalAddress : Nat
  RemotePort : Nat
  RemoteAddress : Nat
deriving DecidableEq, Repr

/-- A gvisor TCP forwarder request as the callback receives it: the flow's
endpoint id plus an opaque handle identifying the request object. -/
structure TCPForwarderRequest where
  id : TransportEndpointID
  handle : Nat
deriving DecidableEq, Repr

/-- A gvisor UDP forwarder request, likewise. -/
structure UDPForwarderRequest where
  id : TransportEndpointID
  handle : Nat
deriving DecidableEq, Repr

/-- `TCPConn`: a TCP forwarder connection (`EndpointID`, `Request`). The
request object is kept as its opaque handle. -/
structure TCPConn where
  EndpointID : TransportEndpointID
  Request : Nat
deriving DecidableEq, Repr

/-- `UDPConn`: a UDP forwarder connection. -/
structure UDPConn where
  EndpointID : TransportEndpointID
  Request : Nat
deriving DecidableEq, Repr

/-- `ICMPConn`: an owned gvisor packet buffer, kept as its opaque handle. -/
structure ICMPConn where
  Request : Nat
deriving DecidableEq, Repr

/-- The `Handler interface{}` field of a `TunConn`, as the three concrete
types the code stores in it. -/
inductive TunHandler where
  | tcp (c : TCPConn)
  | udp (c : UDPConn)
  | icmp (c : ICMPConn)
deriving DecidableEq, Repr

/-- `TunConn`: a terminated userland flow. The code stores the transport
protocol number and the kind-specific handler separately. -/
structure TunConn where
  Protocol : Nat
  Handler : TunHandler
deriving DecidableEq, Repr

/-- `TunConn.IsTCP`: the protocol number equals `tcp.ProtocolNumber`. -/
def TunConn.IsTCP (t : TunConn) : Bool :=
  t.Protocol == tcpProtocolNumber

/-- `TunConn.IsUDP`: the protocol number equals `udp.ProtocolNumber`. -/
def TunConn.IsUDP (t : TunConn) : Bool :=
  t.Protocol == udpProtocolNumber

/-- `TunConn.IsICMP`: the protocol number equals `icmp.ProtocolNumber4`. -/
def TunConn.IsICMP (t : TunConn) : Bool :=
  t.Protocol == icmpProtocolNumber4

/-- Observable destruction actions a `Terminate` call can perform on the
stack library: completing a TCP forwarder request (with or without reset),
dropping a UDP datagram, releasing an ICMP packet buffer, or panicking on a
failed `interface{}` type assertion. -/
inductive TerminateEffect where
  | tcpComplete (request : Nat) (reset : Bool)
  | udpDrop (request : Nat)
  | icmpRelease (request : Nat)
  | castPanic
deriving DecidableEq, Repr

/-- Embedding of `TunConn.Terminate`: `if t.IsTCP() {
t.GetTCP().Request.Complete(reset) }` — the sole action is completing the TCP
forwarder request; UDP and ICMP tun-connections fall through with no action
(the code comments that it is only useful for TCP connections). The
`GetTCP` type assertion panics if the handler is not a `TCPConn`. -/
def TunConn.Terminate (t : TunConn) (reset : Bool) : List TerminateEffect :=
  if t.IsTCP then
    match t.Handler with
    | TunHandler.tcp c => [TerminateEffect.tcpComplete c.Request reset]
    | _ => [TerminateEffect.castPanic]
  else []

/-- The destruction the claim requires of `Terminate`, kind by kind: complete
the TCP forwarder request per the reset flag, drop the UDP datagram, release
the ICMP packet buffer. -/
def terminateSpec (t : TunConn) (reset : Bool) : List TerminateEffect :=
  match t.Handler with
  | TunHandler.tcp c => [TerminateEffect.tcpComplete c.Request reset]
  | TunHandler.udp c => [TerminateEffect.udpDrop c.Request]
  | TunHandler.icmp c => [TerminateEffect.icmpRelease c.Request]

/-- A concrete queued ICMP tun-connection (packet buffer handle 9), as the
ICMP path of the session orchestrator builds it. -/
def icmpTunConn : TunConn :=
  { Protocol := icmpProtocolNumber4
    Handler := TunHandler.icmp { Request := 9 } }

/-- C5 counterexample: terminating a queued ICMP tun-connection performs no
action at all — in particular its owned packet buffer is not released, so
`Terminate` does not destroy it the way the claim specifies. -/
theorem terminate_icmp_counterexample :
    TunConn.Terminate icmpTunConn true = [] ∧
    terminateSpec icmpTunConn true = [TerminateEffect.icmpRelease 9] ∧
    decide (TunConn.Terminate icmpTunConn true =
      terminateSpec icmpTunConn true) = false := by
  exact ⟨rfl, rfl, by decide⟩

/-- C5 amended: `Terminate` destroys only TCP tun-connections — a TCP
TunConn's forwarder request is completed with the given reset flag, while for
UDP and ICMP tun-connections `Terminate` performs no operation (the datagram
is merely left unread and the packet buffer is not explicitly released). -/
theorem terminate_only_acts_on_tcp :
    (∀ (c : TCPConn) (reset : Bool),
      TunConn.Terminate { Protocol := tcpProtocolNumber
                          Handler := TunHandler.tcp c } reset =
        [TerminateEffect.tcpComplete c.Request reset]) ∧
    (∀ (c : UDPConn) (reset : Bool),
      TunConn.Terminate { Protocol := udpProtocolNumber
                          Handler := TunHandler.udp c } reset = []) ∧
    (∀ (c : ICMPConn) (reset : Bool),
      TunConn.Terminate { Protocol := icmpProtocolNumber4
                          Handler := TunHandler.icmp c } reset = []) := by
  refine ⟨fun c reset => rfl, fun c reset => rfl, fun c reset => rfl⟩

/-! ## Connection pool and forwarder callbacks (C3)

The `ConnPool` implementation lives outside the two embedded source files;
its operations are modelled from the specification (§4.3). -/

/-- Modelled from the spec: `ConnPool` (implementation not present under the
embedded sources) — a FIFO queue of tun-connections plus a closed flag. -/
structure ConnPool where
  closed : Bool
  queue : List TunConn
deriving DecidableEq, Repr

/-- Modelled from the spec: `ConnPool.Closed` returns the closed flag. -/
def ConnPool.Closed (p : ConnPool) : Bool :=
  p.closed

/-- Modelled from the spec: `ConnPool.Add` returns *ClosedPool* iff the
closed flag is set, else enqueues (non-blocking) and succeeds. -/
def ConnPool.Add (p : ConnPool) (tc : TunConn) : Except String ConnPool :=
  if p.closed then Except.error "ClosedPool"
  else Except.ok { p with queue := p.queue ++ [tc] }

/-- What a forwarder callback invocation does with the flow. -/
inductive ForwarderOutcome where
  | ignored
  | enqueued (pool : ConnPool)
  | addFailedLogged
deriving DecidableEq, Repr

/-- A forwarder callback invocation: its outcome on the pool, and every
`Complete` call it issued on the forwarder request (the callback bodies in
the source contain none — the request is handed off inside the queued
`TunConn`, never completed here). -/
structure ForwarderResult where
  outcome : ForwarderOutcome
  completions : List TerminateEffect
deriving DecidableEq, Repr

/-- Embedding of the TCP forwarder callback registered by `NetStack.new`:
build `TCPConn{request.ID(), request}`, take the stack lock, return if the
pool is nil or closed (the flow is silently dropped), else `pool.Add` the
`TunConn{tcp.ProtocolNumber, tcpConn}`, logging and dropping on failure. -/
def tcpForwarderCallback (pool : Option ConnPool)
    (request : TCPForwarderRequest) : ForwarderResult :=
  let tcpConn : TCPConn := { EndpointID := request.id, Request := request.handle }
  let outcome :=
    match pool with
    | none => ForwarderOutcome.ignored
    | some p =>
        if p.Closed then ForwarderOutcome.ignored
        else
          match p.Add { Protocol := tcpProtocolNumber
                        Handler := TunHandler.tcp tcpConn } with
          | Except.ok p' => ForwarderOutcome.enqueued p'
          | Except.error _ => ForwarderOutcome.addFailedLogged
  { outcome := outcome, completions := [] }

/-- Embedding of the UDP forwarder callback registered by `NetStack.new`,
identical in structure to the TCP one. -/
def udpForwarderCallback (pool : Option ConnPool)
    (request : UDPForwarderRequest) : ForwarderResult :=
  let udpConn : UDPConn := { EndpointID := request.id, Request := request.handle }
  let outcome :=
    match pool with
    | none => ForwarderOutcome.ignored
    | some p =>
        if p.Closed then ForwarderOutcome.ignored
        else
          match p.Add { Protocol := udpProtocolNumber
                        Handler := TunHandler.udp udpConn } with
          | Except.ok p' => ForwarderOutcome.enqueued p'
          | Except.error _ => ForwarderOutcome.addFailedLogged
  { outcome := outcome, completions := [] }

/-- C3: each TCP and UDP forwarder callback invocation completes no forwarder
request; with a nil or closed pool it returns with the flow silently ignored,
and otherwise it enqueues the built `TunConn` of the matching kind at the
tail of the pool's queue (with the pool open, `Add` succeeds, so the
log-and-drop branch is not taken). -/
theorem forwarder_callback_spec (pool : Option ConnPool)
    (treq : TCPForwarderRequest) (ureq : UDPForwarderRequest) :
    (tcpForwarderCallback pool treq).completions = [] ∧
    (udpForwarderCallback pool ureq).completions = [] ∧
    (tcpForwarderCallback pool treq).outcome =
      (match pool with
        | none => ForwarderOutcome.ignored
        | some p =>
            if p.closed then ForwarderOutcome.ignored
            else
              ForwarderOutcome.enqueued
                { p with
                  queue := p.queue ++
                    [{ Protocol := tcpProtocolNumber
                       Handler := TunHandler.tcp
                          { EndpointID := treq.id, Request := treq.handle } }] }) ∧
    (udpForwarderCallback pool ureq).outcome =
      (match pool with
        | none => ForwarderOutcome.ignored
        | some p =>
            if p.closed then ForwarderOutcome.ignored
            else
              ForwarderOutcome.enqueued
                { p with
                  queue := p.queue ++
                    [{ Protocol := udpProtocolNumber
                       Handler := TunHandler.udp
                          { EndpointID := ureq.id, Request := ureq.handle } }] }) := by
  refine ⟨rfl, rfl, ?_, ?_⟩ <;>
    cases pool with
    | none => rfl
    | some p =>
        by_cases h : p.closed <;>
          simp [tcpForwarderCallback, udpForwarderCallback, ConnPool.Closed,
            ConnPool.Add, h]

/-! ## Stack construction (`NetStack.new`, C9) -/

/-- gvisor network protocol number for IPv4 (`ipv4.ProtocolNumber`,
EtherType 0x0800). -/
def ipv4ProtocolNumber : Nat := 2048

/-- gvisor network protocol number for IPv6 (`ipv6.ProtocolNumber`,
EtherType 0x86DD). -/
def ipv6ProtocolNumber : Nat := 34525

/-- The two route destinations the source installs: `header.IPv4EmptySubnet`
and `header.IPv6EmptySubnet` (the default routes). -/
inductive SubnetKind where
  | ipv4Empty
  | ipv6Empty
deriving DecidableEq, Repr

/-- A gvisor `tcpip.Route`: destination subnet and outgoing NIC. -/
structure Route where
  Destination : SubnetKind
  NIC : Nat
deriving DecidableEq, Repr

/-- A transport protocol option as passed to
`SetTransportProtocolOption`: `tcpip.TCPSACKEnabled` or
`tcpip.TCPAlwaysUseSynCookies`. -/
inductive TransportOption where
  | sackEnabled (b : Bool)
  | alwaysUseSynCookies (b : Bool)
deriving DecidableEq, Repr

/-- The configurable surface of a gvisor `stack.Stack` that `NetStack.new`
touches. Per-NIC flags are association lists keyed by NIC id, newest entry
first. -/
structure StackState where
  icmpLimit : Nat
  icmpBurst : Nat
  routeTable : List Route
  forwardingIPv4 : Bool
  forwardingIPv6 : Bool
  sackEnabled : Bool
  alwaysUseSynCookies : Bool
  promiscuousMode : List (Nat × Bool)
  spoofing : List (Nat × Bool)
  nics : List Nat
deriving DecidableEq, Repr

/-- `Stack.SetICMPLimit`. -/
def StackState.SetICMPLimit (s : StackState) (n : Nat) : StackState :=
  { s with icmpLimit := n }

/-- `Stack.SetICMPBurst`. -/
def StackState.SetICMPBurst (s : StackState) (n : Nat) : StackState :=
  { s with icmpBurst := n }

/-- `Stack.CreateNIC`. -/
def StackState.CreateNIC (s : StackState) (nic : Nat) : StackState :=
  { s with nics := nic :: s.nics }

/-- `Stack.SetRouteTable`. -/
def StackState.SetRouteTable (s : StackState) (routes : List Route) :
    StackState :=
  { s with routeTable := routes }

/-- `Stack.SetForwardingDefaultAndAllNICs` for a network protocol. -/
def StackState.SetForwardingDefaultAndAllNICs (s : StackState) (proto : Nat)
    (b : Bool) : StackState :=
  if proto == ipv4ProtocolNumber then { s with forwardingIPv4 := b }
  else if proto == ipv6ProtocolNumber then { s with forwardingIPv6 := b }
  else s

/-- `Stack.SetTransportProtocolOption` for the two TCP options the source
passes. -/
def StackState.SetTransportProtocolOption (s : StackState) (proto : Nat)
    (o : TransportOption) : StackState :=
  if proto == tcpProtocolNumber then
    match o with
    | TransportOption.sackEnabled b => { s with sackEnabled := b }
    | TransportOption.alwaysUseSynCookies b =>
        { s with alwaysUseSynCookies := b }
  else s

/-- `Stack.SetPromiscuousMode` on one NIC. -/
def StackState.SetPromiscuousMode (s : StackState) (nic : Nat) (b : Bool) :
    StackState :=
  { s with promiscuousMode := (nic, b) :: s.promiscuousMode }

/-- `Stack.SetSpoofing` on one NIC. -/
def StackState.SetSpoofing (s : StackState) (nic : Nat) (b : Bool) :
    StackState :=
  { s with spoofing := (nic, b) :: s.spoofing }

/-- Embedding of the configuration sequence of `NetStack.new`, applied to
whatever defaults `stack.New` produced: zero the ICMP limit and burst,
create NIC 1, install the IPv4 and IPv6 default routes via NIC 1, disable
forwarding for both families, disable SACK, disable always-use-SYN-cookies,
and enable promiscuous mode and spoofing on NIC 1 — in source order. -/
def netStackNew (init : StackState) : StackState :=
  let s1 := init.SetICMPLimit 0
  let s2 := s1.SetICMPBurst 0
  let s3 := s2.CreateNIC 1
  let s4 := s3.SetRouteTable
    [{ Destination := SubnetKind.ipv4Empty, NIC := 1 },
     { Destination := SubnetKind.ipv6Empty, NIC := 1 }]
  let s5 := s4.SetForwardingDefaultAndAllNICs ipv4ProtocolNumber false
  let s6 := s5.SetForwardingDefaultAndAllNICs ipv6ProtocolNumber false
  let s7 := s6.SetTransportProtocolOption tcpProtocolNumber
    (TransportOption.sackEnabled false)
  let s8 := s7.SetTransportProtocolOption tcpProtocolNumber
    (TransportOption.alwaysUseSynCookies false)
  let s9 := s8.SetPromiscuousMode 1 true
  s9.SetSpoofing 1 true

/-- C9: whatever the stack library's defaults, after `NetStack.new` the
stack has SACK disabled, always-use-SYN-cookies disabled, IP forwarding
disabled for IPv4 and IPv6, promiscuous mode and spoofing enabled on NIC 1,
ICMP rate limit and burst both zero, and a route table of exactly one
default IPv4 route and one default IPv6 route via NIC 1. -/
theorem netstack_new_config (init : StackState) :
    (netStackNew init).sackEnabled = false ∧
    (netStackNew init).alwaysUseSynCookies = false ∧
    (netStackNew init).forwardingIPv4 = false ∧
    (netStackNew init).forwardingIPv6 = false ∧
    List.lookup 1 (netStackNew init).promiscuousMode = some true ∧
    List.lookup 1 (netStackNew init).spoofing = some true ∧
    (netStackNew init).icmpLimit = 0 ∧
    (netStackNew init).icmpBurst = 0 ∧
    (netStackNew init).routeTable =
      [{ Destination := SubnetKind.ipv4Empty, NIC := 1 },
       { Destination := SubnetKind.ipv6Empty, NIC := 1 }] := by
  refine ⟨rfl, rfl, rfl, rfl, rfl, rfl, rfl, rfl, rfl⟩

/-! ## InfoRequest: the reply's name field (C8) -/

/-- Embedding of the name computation in the `protocol.MessageInfoRequest`
arm of `handleConn`. `hostnameRes` is the result of `os.Hostname` and
`userRes` the username from `user.Current` (`none` on lookup failure; its
error is discarded with `_`). The code then tests the stale `err` variable —
still holding the `os.Hostname` error — so the username falls back to the
string `"Unknown"` exactly when the hostname lookup failed; when the hostname
succeeded but the user lookup failed, `userinfo` is nil and
`userinfo.Username` dereferences a nil pointer (result `none` = panic, no
reply). -/
def infoReplyName (hostnameRes : Option String) (userRes : Option String) :
    Option String :=
  let hostname :=
    match hostnameRes with
    | some h => h
    | none => "UNKNOWN"
  match hostnameRes with
  | none => some ("Unknown" ++ "@" ++ hostname)
  | some _ =>
      match userRes with
      | some u => some (u ++ "@" ++ hostname)
      | none => none

/-- The name the claim requires: `<user>@<host>` with each undeterminable
field replaced by the literal string `"UNKNOWN"`. -/
def infoReplyNameSpec (hostnameRes : Option String)
    (userRes : Option String) : Option String :=
  some ((userRes.getD "UNKNOWN") ++ "@" ++ (hostnameRes.getD "UNKNOWN"))

/-- C8: at the failing input — hostname lookup fails, user lookup succeeds
with `"alice"` — the code replies `"Unknown@UNKNOWN"`, discarding the
determined username and using `"Unknown"` rather than the literal
`"UNKNOWN"`, where the claim requires `"alice@UNKNOWN"`. -/
theorem info_reply_name_bug :
    infoReplyName none (some "alice") = some "Unknown@UNKNOWN" ∧
    infoReplyNameSpec none (some "alice") = some "alice@UNKNOWN" ∧
    decide (infoReplyName none (some "alice") =
      infoReplyNameSpec none (some "alice")) = false := by
  refine ⟨rfl, rfl, by decide⟩

end LigoloNg
